import Mathlib

/-!
# Scaling helpers and REST configuration of the dashboard backend

A shallow embedding of

* `src/app/backend/resource/scaling/scale.go`
  (`GetScaleSpec`, `ScaleResource`, `scaleGenericResource`, `scaleJobResource`);
* `src/app/backend/resource/thirdpartyresource/client.go` (`newRESTConfig`).

The cluster API client is an interface of an external library.  It is taken as
a parameter: a record of four operations over an arbitrary cluster state.  Every
operation answers the way a Go method does, with a pointer that may be nil and
an error that may be nil.  Calls are recorded in a log, so that statements about
which requests were issued can be expressed.  A nil pointer dereference is the
outcome `Outcome.panicked`.

Go's `int` is taken to be 64 bits wide (`IntSize`), `int32` values are integers
and the conversion `int32(c)` is the explicit wrap `toInt32`.

The type registry `runtime.Scheme` is an object of the same library.  It is
taken as a parameter too: its method `AddKnownTypes` either returns or panics,
and a panic raised by the registration ends `newRESTConfig` without a result.
-/

namespace Dashboard

/-! ## Errors -/

/-- The two sentinel causes carried by a `strconv.NumError`:
`strconv.ErrSyntax` and `strconv.ErrRange`. -/
inductive NumErrKind where
  | invalid
  | outOfRange
  deriving DecidableEq, Repr

/-- The Go `error` values that reach this code. -/
inductive GoError where
  /-- An error produced by the cluster API client (not found, forbidden,
  conflict, transport fault, ...), identified by a reason and a message. -/
  | api (reason : String) (message : String)
  /-- A `*strconv.NumError` with its `Func`, `Num` and `Err` fields. -/
  | numError (func : String) (num : String) (err : NumErrKind)
  /-- An error built by `fmt.Errorf` or `errors.New`; its `Error()` text is the
  carried string. -/
  | errorString (text : String)
  deriving DecidableEq, Repr

/-- The pair `(pointer, error)` a Go client method returns. -/
structure Reply (α : Type) where
  val : Option α
  err : Option GoError
  deriving DecidableEq, Repr

/-- How a Go function call ends: it returns a value or it panics. -/
inductive Outcome (α : Type) where
  | returned (a : α)
  | panicked
  deriving DecidableEq, Repr

/-! ## `strings.ToLower`, `strconv.Atoi`, `int32(_)`, `fmt.Errorf` -/

/-- Lower-casing of a string, character by character, on the ASCII letters.
Go's `strings.ToLower` also maps non-ASCII letters; none of them is mapped to
`j`, `o` or `b`, so the comparison with `"job"` made by `ScaleResource` is the
same. -/
def ToLower (s : String) : String :=
  String.mk (s.data.map Char.toLower)

/-- Width of Go's `int` (`strconv.IntSize`) on a 64-bit target. -/
def IntSize : Nat := 64

/-- Value of a decimal digit, `none` for any other character. -/
def digitVal (c : Char) : Option Nat :=
  if '0' ≤ c ∧ c ≤ '9' then some (c.toNat - '0'.toNat) else none

/-- The digit loop of `strconv.ParseUint` in base 10: a character that is not
a digit stops with a syntax error, a value above `maxVal` stops with a range
error and the value `maxVal`. -/
def parseUintLoop (maxVal : Nat) : List Char → Nat → Nat × Option NumErrKind
  | [], n => (n, none)
  | c :: cs, n =>
    match digitVal c with
    | none => (0, some NumErrKind.invalid)
    | some d =>
      if n * 10 + d > maxVal then (maxVal, some NumErrKind.outOfRange)
      else parseUintLoop maxVal cs (n * 10 + d)

/-- `strconv.ParseUint(s, 10, IntSize)`. -/
def ParseUint (s : List Char) : Nat × Option NumErrKind :=
  match s with
  | [] => (0, some NumErrKind.invalid)
  | _ :: _ => parseUintLoop (2 ^ IntSize - 1) s 0

/-- `strconv.ParseInt(s, 10, 0)`: an optional sign, then `ParseUint`, then
the range check against `2 ^ (IntSize - 1)`. -/
def ParseInt (s : String) : Int × Option GoError :=
  match s.data with
  | [] => (0, some (GoError.numError "ParseInt" s NumErrKind.invalid))
  | c :: cs =>
    let neg : Bool := decide (c = '-')
    let digits : List Char := if c = '+' ∨ c = '-' then cs else c :: cs
    let u := ParseUint digits
    if u.2 = some NumErrKind.invalid then
      (0, some (GoError.numError "ParseInt" s NumErrKind.invalid))
    else
      let cutoff : Nat := 2 ^ (IntSize - 1)
      if neg = false ∧ u.1 ≥ cutoff then
        (((cutoff - 1 : Nat) : Int), some (GoError.numError "ParseInt" s NumErrKind.outOfRange))
      else if neg = true ∧ u.1 > cutoff then
        (-(cutoff : Int), some (GoError.numError "ParseInt" s NumErrKind.outOfRange))
      else
        ((if neg then -(u.1 : Int) else (u.1 : Int)), none)

/-- `strconv.Atoi`: `ParseInt(s, 10, 0)` with the `Func` of a `NumError`
renamed to `Atoi`. -/
def Atoi (s : String) : Int × Option GoError :=
  let r := ParseInt s
  match r.2 with
  | some (GoError.numError _ num err) => (r.1, some (GoError.numError "Atoi" num err))
  | other => (r.1, other)

/-- The Go conversion `int32(c)` of an `int`: the low 32 bits, read as a
two's complement number. -/
def toInt32 (c : Int) : Int :=
  (c + 2 ^ 31) % 2 ^ 32 - 2 ^ 31

/-- `fmt.Errorf(format + "%s", arg)` for a format that ends in its only verb
`%s`: the string argument is printed verbatim after the fixed text. -/
def Errorf (fixed : String) (arg : String) : GoError :=
  GoError.errorString (fixed ++ arg)

/-! ## Cluster objects -/

/-- The part of `metav1.ObjectMeta` carried along by the objects below. -/
structure ObjectMeta where
  name : String
  ns : String
  resourceVersion : String
  labels : List (String × String)
  deriving DecidableEq, Repr

/-- Desired state of the scale sub-resource. -/
structure ScaleSpec where
  replicas : Int
  deriving DecidableEq, Repr

/-- Observed state of the scale sub-resource. -/
structure ScaleStatus where
  replicas : Int
  selector : List (String × String)
  targetSelector : String
  deriving DecidableEq, Repr

/-- The scale sub-resource (`extensions/v1beta1.Scale`). -/
structure Scale where
  objectMeta : ObjectMeta
  spec : ScaleSpec
  status : ScaleStatus
  deriving DecidableEq, Repr

/-- The part of `batch/v1.JobSpec` the code reads; `Parallelism` and
`Completions` are pointers to `int32`. -/
structure JobSpec where
  parallelism : Option Int
  completions : Option Int
  deriving DecidableEq, Repr

/-- Observed state of a Job. -/
structure JobStatus where
  active : Int
  succeeded : Int
  failed : Int
  deriving DecidableEq, Repr

/-- A Job (`batch/v1.Job`). -/
structure Job where
  objectMeta : ObjectMeta
  spec : JobSpec
  status : JobStatus
  deriving DecidableEq, Repr

/-- ReplicaCounts provide the desired and actual number of replicas. -/
structure ReplicaCounts where
  DesiredReplicas : Int
  ActualReplicas : Int
  deriving DecidableEq, Repr

/-! ## The cluster client -/

/-- A request issued against the cluster client. -/
inductive Call where
  | scalesGet (ns kind name : String)
  | scalesUpdate (ns kind : String) (scale : Scale)
  | jobsGet (ns name : String)
  | jobsUpdate (ns : String) (job : Job)
  deriving DecidableEq, Repr

/-- Whether a request is a write. -/
def Call.isUpdate : Call → Bool
  | Call.scalesGet _ _ _ => false
  | Call.scalesUpdate _ _ _ => true
  | Call.jobsGet _ _ => false
  | Call.jobsUpdate _ _ => true

/-- Whether a request addresses the generic scale sub-resource. -/
def Call.isScales : Call → Bool
  | Call.scalesGet _ _ _ => true
  | Call.scalesUpdate _ _ _ => true
  | Call.jobsGet _ _ => false
  | Call.jobsUpdate _ _ => false

/-- The methods of `client.Interface` used by the scaling code, over a cluster
state `σ`:
`Extensions().Scales(ns).Get(kind, name)`, `Extensions().Scales(ns).Update(kind, s)`,
`BatchV1().Jobs(ns).Get(name, opts)` and `BatchV1().Jobs(ns).Update(j)`. -/
structure Client (σ : Type) where
  scalesGet : σ → String → String → String → Reply Scale × σ
  scalesUpdate : σ → String → String → Scale → Reply Scale × σ
  jobsGet : σ → String → String → Reply Job × σ
  jobsUpdate : σ → String → Job → Reply Job × σ

/-- The cluster state together with the log of the requests issued so far. -/
structure World (σ : Type) where
  state : σ
  calls : List Call

/-- Issue `Extensions().Scales(ns).Get(kind, name)`. -/
def callScalesGet {σ : Type} (cl : Client σ) (ns kind name : String) (w : World σ) :
    Reply Scale × World σ :=
  ((cl.scalesGet w.state ns kind name).1,
   { state := (cl.scalesGet w.state ns kind name).2,
     calls := w.calls ++ [Call.scalesGet ns kind name] })

/-- Issue `Extensions().Scales(ns).Update(kind, s)`. -/
def callScalesUpdate {σ : Type} (cl : Client σ) (ns kind : String) (s : Scale) (w : World σ) :
    Reply Scale × World σ :=
  ((cl.scalesUpdate w.state ns kind s).1,
   { state := (cl.scalesUpdate w.state ns kind s).2,
     calls := w.calls ++ [Call.scalesUpdate ns kind s] })

/-- Issue `BatchV1().Jobs(ns).Get(name, metaV1.GetOptions{})`. -/
def callJobsGet {σ : Type} (cl : Client σ) (ns name : String) (w : World σ) :
    Reply Job × World σ :=
  ((cl.jobsGet w.state ns name).1,
   { state := (cl.jobsGet w.state ns name).2,
     calls := w.calls ++ [Call.jobsGet ns name] })

/-- Issue `BatchV1().Jobs(ns).Update(j)`. -/
def callJobsUpdate {σ : Type} (cl : Client σ) (ns : String) (j : Job) (w : World σ) :
    Reply Job × World σ :=
  ((cl.jobsUpdate w.state ns j).1,
   { state := (cl.jobsUpdate w.state ns j).2,
     calls := w.calls ++ [Call.jobsUpdate ns j] })

/-! ## `scale.go` -/

/-- GetScaleSpec returns a populated ReplicaCounts object with desired and
actual number of replicas. -/
def GetScaleSpec {σ : Type} (cl : Client σ) (kind ns name : String) (w : World σ) :
    Outcome (Option ReplicaCounts × Option GoError) × World σ :=
  let rc : ReplicaCounts := { DesiredReplicas := 0, ActualReplicas := 0 }
  let g := callScalesGet cl ns kind name w
  match g.1.err with
  | some e => (Outcome.returned (none, some e), g.2)
  | none =>
    match g.1.val with
    | none => (Outcome.panicked, g.2)
    | some s =>
      let rc1 := { rc with DesiredReplicas := s.spec.replicas }
      let rc2 := { rc1 with ActualReplicas := s.status.replicas }
      (Outcome.returned (some rc2, none), g.2)

/-- The function scaleGenericResource is used for Deployment, ReplicaSet,
Replication Controller scaling.  The result carries the contents of `rc`
after the call and the returned error. -/
def scaleGenericResource {σ : Type} (cl : Client σ) (kind ns name count : String)
    (rc : ReplicaCounts) (w : World σ) : Outcome (ReplicaCounts × Option GoError) × World σ :=
  let g := callScalesGet cl ns kind name w
  match g.1.err with
  | some e => (Outcome.returned (rc, some e), g.2)
  | none =>
    let a := Atoi count
    match a.2 with
    | some _ => (Outcome.returned (rc, some (Errorf "Cannot parse scale by value: " count)), g.2)
    | none =>
      match g.1.val with
      | none => (Outcome.panicked, g.2)
      | some s =>
        let s1 : Scale := { s with spec := { s.spec with replicas := toInt32 a.1 } }
        let u := callScalesUpdate cl ns kind s1 g.2
        match u.1.err with
        | some e => (Outcome.returned (rc, some e), u.2)
        | none =>
          match u.1.val with
          | none => (Outcome.panicked, u.2)
          | some s2 =>
            let rc1 := { rc with DesiredReplicas := s2.spec.replicas }
            let rc2 := { rc1 with ActualReplicas := s2.status.replicas }
            (Outcome.returned (rc2, none), u.2)

/-- The function scaleJobResource is exclusively used for jobs as it does not
increase/decrease pods but jobs parallelism attribute.  The errors of the two
client calls are overwritten or never read; `j` and `j.Spec.Parallelism` are
dereferenced without a nil check. -/
def scaleJobResource {σ : Type} (cl : Client σ) (ns name count : String)
    (rc : ReplicaCounts) (w : World σ) : Outcome (ReplicaCounts × Option GoError) × World σ :=
  let g := callJobsGet cl ns name w
  let a := Atoi count
  match a.2 with
  | some e => (Outcome.returned (rc, some e), g.2)
  | none =>
    match g.1.val with
    | none => (Outcome.panicked, g.2)
    | some j =>
      match j.spec.parallelism with
      | none => (Outcome.panicked, g.2)
      | some _ =>
        let j1 : Job := { j with spec := { j.spec with parallelism := some (toInt32 a.1) } }
        let u := callJobsUpdate cl ns j1 g.2
        match u.1.val with
        | none => (Outcome.panicked, u.2)
        | some j2 =>
          match j2.spec.parallelism with
          | none => (Outcome.panicked, u.2)
          | some p =>
            let rc1 := { rc with DesiredReplicas := p }
            let rc2 := { rc1 with ActualReplicas := p }
            (Outcome.returned (rc2, none), u.2)

/-- ScaleResource scales the provided resource using the client scale method
in the case of Deployment, ReplicaSet, Replication Controller.  In the case of
a job we are using the jobs resource update method since the client scale
method does not provide one for the job. -/
def ScaleResource {σ : Type} (cl : Client σ) (kind ns name count : String) (w : World σ) :
    Outcome (Option ReplicaCounts × Option GoError) × World σ :=
  let rc : ReplicaCounts := { DesiredReplicas := 0, ActualReplicas := 0 }
  let r :=
    if ToLower kind = "job" then scaleJobResource cl ns name count rc w
    else scaleGenericResource cl kind ns name count rc w
  match r.1 with
  | Outcome.panicked => (Outcome.panicked, r.2)
  | Outcome.returned (_, some e) => (Outcome.returned (none, some e), r.2)
  | Outcome.returned (rc1, none) => (Outcome.returned (some rc1, none), r.2)

/-! ## A cluster modelled as a store

The store keeps scale objects under the identity `(kind, namespace, name)` and
Jobs under `(namespace, name)`.  A lookup of an absent identity answers with a
pointer to a zero object and a not-found error, as the typed client does; an
update stores the object it is given and echoes it. -/

/-- First value bound to a key in an association list. -/
def lookup {κ α : Type} [DecidableEq κ] (k : κ) : List (κ × α) → Option α
  | [] => none
  | (k1, v) :: rest => if k1 = k then some v else lookup k rest

/-- Rebind a key wherever it occurs in an association list. -/
def replace {κ α : Type} [DecidableEq κ] (k : κ) (v : α) : List (κ × α) → List (κ × α)
  | [] => []
  | (k1, v1) :: rest => if k1 = k then (k1, v) :: replace k v rest else (k1, v1) :: replace k v rest

/-- The objects held by the store. -/
structure Cluster where
  scales : List ((String × String × String) × Scale)
  jobs : List ((String × String) × Job)
  deriving DecidableEq, Repr

/-- The zero value of `Scale`. -/
def zeroScale : Scale :=
  { objectMeta := { name := "", ns := "", resourceVersion := "", labels := [] },
    spec := { replicas := 0 },
    status := { replicas := 0, selector := [], targetSelector := "" } }

/-- The zero value of `Job`. -/
def zeroJob : Job :=
  { objectMeta := { name := "", ns := "", resourceVersion := "", labels := [] },
    spec := { parallelism := none, completions := none },
    status := { active := 0, succeeded := 0, failed := 0 } }

/-- The error answered for an absent object. -/
def notFound (name : String) : GoError :=
  GoError.api "NotFound" name

/-- The store seen through the client interface.  A fetched object carries the
namespace and name it was asked for. -/
def storeClient : Client Cluster where
  scalesGet := fun st ns kind name =>
    match lookup (kind, ns, name) st.scales with
    | some s =>
      ({ val := some { s with objectMeta := { s.objectMeta with name := name, ns := ns } },
         err := none }, st)
    | none => ({ val := some zeroScale, err := some (notFound name) }, st)
  scalesUpdate := fun st ns kind s =>
    match lookup (kind, ns, s.objectMeta.name) st.scales with
    | some _ =>
      ({ val := some s, err := none },
       { st with scales := replace (kind, ns, s.objectMeta.name) s st.scales })
    | none => ({ val := some zeroScale, err := some (notFound s.objectMeta.name) }, st)
  jobsGet := fun st ns name =>
    match lookup (ns, name) st.jobs with
    | some j =>
      ({ val := some { j with objectMeta := { j.objectMeta with name := name, ns := ns } },
         err := none }, st)
    | none => ({ val := some zeroJob, err := some (notFound name) }, st)
  jobsUpdate := fun st ns j =>
    match lookup (ns, j.objectMeta.name) st.jobs with
    | some _ =>
      ({ val := some j, err := none },
       { st with jobs := replace (ns, j.objectMeta.name) j st.jobs })
    | none => ({ val := some zeroJob, err := some (notFound j.objectMeta.name) }, st)

/-- A store with one Deployment `default/web` (2 desired, 2 running replicas)
and one Job `default/batch` of parallelism 1. -/
def demoCluster : Cluster :=
  { scales :=
      [(("Deployment", "default", "web"),
        { objectMeta := { name := "web", ns := "default", resourceVersion := "7", labels := [] },
          spec := { replicas := 2 },
          status := { replicas := 2, selector := [("app", "web")], targetSelector := "app=web" } })],
    jobs :=
      [(("default", "batch"),
        { objectMeta := { name := "batch", ns := "default", resourceVersion := "3", labels := [] },
          spec := { parallelism := some 1, completions := some 4 },
          status := { active := 1, succeeded := 0, failed := 0 } })] }

/-- The demo store with an empty request log. -/
def demoWorld : World Cluster :=
  { state := demoCluster, calls := [] }

/-- The scenario of the round trip: read the scale, apply a new scale, read the
scale again, on the same identity and with no other request in between.  The
three outcomes are returned in that order. -/
def scaleRoundTrip {σ : Type} (cl : Client σ) (kind ns name count : String) (w : World σ) :
    Outcome (Option ReplicaCounts × Option GoError) ×
    Outcome (Option ReplicaCounts × Option GoError) ×
    Outcome (Option ReplicaCounts × Option GoError) :=
  let r1 := GetScaleSpec cl kind ns name w
  let r2 := ScaleResource cl kind ns name count r1.2
  let r3 := GetScaleSpec cl kind ns name r2.2
  (r1.1, r2.1, r3.1)

/-! ## `client.go` -/

/-- The pair `schema.GroupVersion`. -/
structure GroupVersion where
  Group : String
  Version : String
  deriving DecidableEq, Repr

/-- A codec factory: `scheme.Codecs`, built from the shared `scheme.Scheme`, or
any other one. -/
inductive CodecFactory where
  | schemeCodecs
  | custom (id : String)
  deriving DecidableEq, Repr

/-- The serializers a configuration can carry: a
`serializer.DirectCodecFactory` around a codec factory, or any other one. -/
inductive NegotiatedSerializer where
  | directCodecFactory (codecFactory : CodecFactory)
  | custom (id : String)
  deriving DecidableEq, Repr

/-- The file names of `rest.TLSClientConfig`. -/
structure TLSClientConfig where
  ServerName : String
  CertFile : String
  KeyFile : String
  CAFile : String
  deriving DecidableEq, Repr

/-- The connection configuration `rest.Config`: host, API path, content
configuration (accepted types, content type, group-version, serializer),
credentials, TLS settings, user agent, burst and timeout. -/
structure Config where
  Host : String
  APIPath : String
  AcceptContentTypes : String
  ContentType : String
  GroupVersion : Option GroupVersion
  NegotiatedSerializer : Option NegotiatedSerializer
  Username : String
  Password : String
  BearerToken : String
  Insecure : Bool
  TLSClientConfig : TLSClientConfig
  UserAgent : String
  Burst : Int
  Timeout : Int
  deriving DecidableEq, Repr

/-- The constant `runtime.ContentTypeJSON`. -/
def ContentTypeJSON : String := "application/json"

/-- The identity of a Go type: the package that declares it and its name. -/
structure GoType where
  pkgPath : String
  name : String
  deriving DecidableEq, Repr

/-- The type registry `runtime.Scheme` as `newRESTConfig` uses it, over a
registry state `ρ`: the method `AddKnownTypes(gv, types...)`, which returns or
panics and leaves a new registry state. -/
structure Registry (ρ : Type) where
  AddKnownTypes : ρ → GroupVersion → List GoType → Outcome Unit × ρ

/-- The four types `newRESTConfig` registers, in order: `metav1.ListOptions`,
`metav1.DeleteOptions`, `ThirdPartyResourceObject` and
`ThirdPartyResourceObjectList`. -/
def knownTypes : List GoType :=
  [{ pkgPath := "k8s.io/apimachinery/pkg/apis/meta/v1", name := "ListOptions" },
   { pkgPath := "k8s.io/apimachinery/pkg/apis/meta/v1", name := "DeleteOptions" },
   { pkgPath := "github.com/kubernetes/dashboard/src/app/backend/resource/thirdpartyresource",
     name := "ThirdPartyResourceObject" },
   { pkgPath := "github.com/kubernetes/dashboard/src/app/backend/resource/thirdpartyresource",
     name := "ThirdPartyResourceObjectList" }]

/-- The function newRESTConfig gives back a rest config.  The four assignments
mutate the caller's configuration in place; then the scheme builder runs the
registration on the shared `scheme.Scheme`, and a panic raised there leaves the
function without a result.  The components are: how the call ends (with the
returned pointer's contents), the contents of the caller's configuration after
the call, and the registry after the call. -/
def newRESTConfig {ρ : Type} (reg : Registry ρ) (config : Config)
    (groupVersion : GroupVersion) (sch : ρ) : Outcome Config × Config × ρ :=
  let c1 : Config := { config with GroupVersion := some groupVersion }
  let c2 : Config := { c1 with APIPath := "/apis" }
  let c3 : Config := { c2 with ContentType := ContentTypeJSON }
  let direct := NegotiatedSerializer.directCodecFactory CodecFactory.schemeCodecs
  let c4 : Config := { c3 with NegotiatedSerializer := some direct }
  let r := reg.AddKnownTypes sch groupVersion knownTypes
  match r.1 with
  | Outcome.panicked => (Outcome.panicked, c4, r.2)
  | Outcome.returned _ => (Outcome.returned c4, c4, r.2)

/-! ## A registry modelled as a table

The table binds (group-version, kind) to a Go type, as the `gvkToType` map of
`runtime.Scheme` does.  A registration panics when the version of the
group-version is empty ("version is required on all types") and when the kind
is already bound under the group-version to a different type. -/

/-- The table of registered types. -/
structure Scheme where
  gvkToType : List ((GroupVersion × String) × GoType)
  deriving DecidableEq, Repr

/-- Register one type under a group-version and a kind. -/
def Scheme.AddKnownTypeWithName (sch : Scheme) (gv : GroupVersion) (kind : String)
    (t : GoType) : Outcome Unit × Scheme :=
  if gv.Version = "" then (Outcome.panicked, sch)
  else
    match lookup (gv, kind) sch.gvkToType with
    | some oldT => if oldT = t then (Outcome.returned (), sch) else (Outcome.panicked, sch)
    | none => (Outcome.returned (), { gvkToType := sch.gvkToType ++ [((gv, kind), t)] })

/-- Register the types in order, each under the kind that is its name; the
first panic stops the registration. -/
def Scheme.AddKnownTypes (sch : Scheme) (gv : GroupVersion) :
    List GoType → Outcome Unit × Scheme
  | [] => (Outcome.returned (), sch)
  | t :: ts =>
    match (sch.AddKnownTypeWithName gv t.name t).1 with
    | Outcome.panicked => (Outcome.panicked, (sch.AddKnownTypeWithName gv t.name t).2)
    | Outcome.returned _ => Scheme.AddKnownTypes (sch.AddKnownTypeWithName gv t.name t).2 gv ts

/-- The table seen through the registry interface. -/
def schemeRegistry : Registry Scheme where
  AddKnownTypes := fun sch gv types => sch.AddKnownTypes gv types

/-- A registry that holds `ListOptions` and `DeleteOptions` under the core
group-version `v1`. -/
def demoScheme : Scheme :=
  { gvkToType :=
      [(({ Group := "", Version := "v1" }, "ListOptions"),
        { pkgPath := "k8s.io/apimachinery/pkg/apis/meta/v1", name := "ListOptions" }),
       (({ Group := "", Version := "v1" }, "DeleteOptions"),
        { pkgPath := "k8s.io/apimachinery/pkg/apis/meta/v1", name := "DeleteOptions" })] }

/-- A connection configuration for a cluster reached with a bearer token. -/
def demoConfig : Config :=
  { Host := "https://10.0.0.1:6443", APIPath := "/api", AcceptContentTypes := "",
    ContentType := "application/vnd.kubernetes.protobuf", GroupVersion := none,
    NegotiatedSerializer := none, Username := "", Password := "", BearerToken := "token",
    Insecure := false,
    TLSClientConfig := { ServerName := "", CertFile := "", KeyFile := "", CAFile := "/etc/ca.crt" },
    UserAgent := "dashboard", Burst := 10, Timeout := 0 }

/-! ## Auxiliary facts -/

theorem lookup_replace {κ α : Type} [DecidableEq κ] (k : κ) (v v0 : α) (l : List (κ × α))
    (h : lookup k l = some v0) : lookup k (replace k v l) = some v := by
  induction l with
  | nil => simp [lookup] at h
  | cons hd tl ih =>
    obtain ⟨k1, v1⟩ := hd
    by_cases hk : k1 = k
    · simp [replace, lookup, hk]
    · simp only [lookup, if_neg hk] at h
      simp [replace, lookup, hk, ih h]

theorem toInt32_of_range (c : Int) (h1 : -2 ^ 31 ≤ c) (h2 : c ≤ 2 ^ 31 - 1) : toInt32 c = c := by
  unfold toInt32
  rw [Int.emod_eq_of_lt (by omega) (by omega)]
  omega

theorem toInt32_range (c : Int) : -2 ^ 31 ≤ toInt32 c ∧ toInt32 c ≤ 2 ^ 31 - 1 := by
  unfold toInt32
  have h1 := Int.emod_nonneg (c + 2 ^ 31) (show (2 ^ 32 : Int) ≠ 0 by norm_num)
  have h2 := Int.emod_lt_of_pos (c + 2 ^ 31) (show (0 : Int) < 2 ^ 32 by norm_num)
  constructor <;> omega

theorem toInt32_congr (c : Int) : (2 ^ 32 : Int) ∣ (c - toInt32 c) := by
  unfold toInt32
  have h := Int.emod_add_ediv (c + 2 ^ 31) (2 ^ 32)
  refine ⟨(c + 2 ^ 31) / 2 ^ 32, ?_⟩
  omega

/-- On a kind that is not the job kind `ScaleResource` runs `scaleGenericResource`
on a fresh `ReplicaCounts`. -/
theorem ScaleResource_generic {σ : Type} (cl : Client σ) (kind ns name count : String)
    (w : World σ) (hk : ToLower kind ≠ "job") :
    ScaleResource cl kind ns name count w =
      match (scaleGenericResource cl kind ns name count ⟨0, 0⟩ w).1 with
      | Outcome.panicked =>
        (Outcome.panicked, (scaleGenericResource cl kind ns name count ⟨0, 0⟩ w).2)
      | Outcome.returned (_, some e) =>
        (Outcome.returned (none, some e), (scaleGenericResource cl kind ns name count ⟨0, 0⟩ w).2)
      | Outcome.returned (rc1, none) =>
        (Outcome.returned (some rc1, none), (scaleGenericResource cl kind ns name count ⟨0, 0⟩ w).2) := by
  simp only [ScaleResource, if_neg hk]

/-- On the job kind `ScaleResource` runs `scaleJobResource` on a fresh
`ReplicaCounts`. -/
theorem ScaleResource_job {σ : Type} (cl : Client σ) (kind ns name count : String)
    (w : World σ) (hk : ToLower kind = "job") :
    ScaleResource cl kind ns name count w =
      match (scaleJobResource cl ns name count ⟨0, 0⟩ w).1 with
      | Outcome.panicked =>
        (Outcome.panicked, (scaleJobResource cl ns name count ⟨0, 0⟩ w).2)
      | Outcome.returned (_, some e) =>
        (Outcome.returned (none, some e), (scaleJobResource cl ns name count ⟨0, 0⟩ w).2)
      | Outcome.returned (rc1, none) =>
        (Outcome.returned (some rc1, none), (scaleJobResource cl ns name count ⟨0, 0⟩ w).2) := by
  simp only [ScaleResource, if_pos hk]

/-- The world left by `ScaleResource` on a kind that is not the job kind is the
one left by `scaleGenericResource`. -/
theorem ScaleResource_generic_world {σ : Type} (cl : Client σ) (kind ns name count : String)
    (w : World σ) (hk : ToLower kind ≠ "job") :
    (ScaleResource cl kind ns name count w).2 =
      (scaleGenericResource cl kind ns name count ⟨0, 0⟩ w).2 := by
  rw [ScaleResource_generic cl kind ns name count w hk]
  split <;> rfl

/-- The world left by `ScaleResource` on the job kind is the one left by
`scaleJobResource`. -/
theorem ScaleResource_job_world {σ : Type} (cl : Client σ) (kind ns name count : String)
    (w : World σ) (hk : ToLower kind = "job") :
    (ScaleResource cl kind ns name count w).2 =
      (scaleJobResource cl ns name count ⟨0, 0⟩ w).2 := by
  rw [ScaleResource_job cl kind ns name count w hk]
  split <;> rfl

/-- Whatever the client answers, the requests issued by `scaleJobResource`
start with the Job fetch and none of them addresses the scale sub-resource. -/
theorem scaleJobResource_calls {σ : Type} (cl : Client σ) (ns name count : String)
    (rc : ReplicaCounts) (w : World σ) :
    ∃ rest, (scaleJobResource cl ns name count rc w).2.calls =
        w.calls ++ Call.jobsGet ns name :: rest ∧
      ∀ c ∈ rest, c.isScales = false := by
  unfold scaleJobResource
  dsimp only
  split
  · exact ⟨[], by simp [callJobsGet], by simp⟩
  · split
    · exact ⟨[], by simp [callJobsGet], by simp⟩
    · split
      · exact ⟨[], by simp [callJobsGet], by simp⟩
      · split
        · exact ⟨[_], by simp [callJobsGet, callJobsUpdate]; rfl, by simp [Call.isScales]⟩
        · split <;>
          exact ⟨[_], by simp [callJobsGet, callJobsUpdate]; rfl, by simp [Call.isScales]⟩

/-! ## Reading the scale -/

/-- C5: when the scale lookup succeeds with object `s`, `GetScaleSpec` returns a
nil error and the pair (`s.Spec.Replicas`, `s.Status.Replicas`); when the lookup
fails with error `e` it returns a nil result and exactly `e`; in every case the
only request issued is the lookup, so nothing is written. -/
theorem GetScaleSpec_spec {σ : Type} (cl : Client σ) (kind ns name : String) (w : World σ) :
    (∀ s, (cl.scalesGet w.state ns kind name).1 = { val := some s, err := none } →
      (GetScaleSpec cl kind ns name w).1 =
        Outcome.returned
          (some { DesiredReplicas := s.spec.replicas, ActualReplicas := s.status.replicas }, none)) ∧
    (∀ e, (cl.scalesGet w.state ns kind name).1.err = some e →
      (GetScaleSpec cl kind ns name w).1 = Outcome.returned (none, some e)) ∧
    (GetScaleSpec cl kind ns name w).2.calls = w.calls ++ [Call.scalesGet ns kind name] ∧
    (GetScaleSpec cl kind ns name w).2.state = (cl.scalesGet w.state ns kind name).2 := by
  refine ⟨?_, ?_, ?_, ?_⟩
  · intro s h
    simp [GetScaleSpec, callScalesGet, h]
  · intro e h
    simp [GetScaleSpec, callScalesGet, h]
  · unfold GetScaleSpec
    dsimp only
    split
    · rfl
    · split <;> rfl
  · unfold GetScaleSpec
    dsimp only
    split
    · rfl
    · split <;> rfl

/-- Witness for C5 on the demo store: `default/web` is found, `default/nope` is not. -/
theorem GetScaleSpec_spec_witness :
    (GetScaleSpec storeClient "Deployment" "default" "web" demoWorld).1 =
        Outcome.returned (some { DesiredReplicas := 2, ActualReplicas := 2 }, none) ∧
    (GetScaleSpec storeClient "Deployment" "default" "nope" demoWorld).1 =
        Outcome.returned (none, some (notFound "nope")) ∧
    (GetScaleSpec storeClient "Deployment" "default" "web" demoWorld).2.calls =
        [Call.scalesGet "default" "Deployment" "web"] :=
  ⟨(GetScaleSpec_spec storeClient "Deployment" "default" "web" demoWorld).1
      { objectMeta := { name := "web", ns := "default", resourceVersion := "7", labels := [] },
        spec := { replicas := 2 },
        status := { replicas := 2, selector := [("app", "web")], targetSelector := "app=web" } }
      (by decide),
   (GetScaleSpec_spec storeClient "Deployment" "default" "nope" demoWorld).2.1
      (notFound "nope") (by decide),
   (GetScaleSpec_spec storeClient "Deployment" "default" "web" demoWorld).2.2.1⟩

/-! ## Malformed counts -/

/-- C3: for every kind, namespace, name and every count string that `Atoi`
rejects, `ScaleResource` returns a nil result with a non-nil error, the only
request it issues is the initial fetch (a read), and the cluster state is the
one left by that fetch: no update is issued. -/
theorem ScaleResource_rejects_malformed_count {σ : Type} (cl : Client σ)
    (kind ns name count : String) (w : World σ) (h : (Atoi count).2 ≠ none) :
    (∃ e, (ScaleResource cl kind ns name count w).1 = Outcome.returned (none, some e)) ∧
    (∃ c, (ScaleResource cl kind ns name count w).2.calls = w.calls ++ [c] ∧
      c.isUpdate = false) ∧
    (ScaleResource cl kind ns name count w).2.state =
      (if ToLower kind = "job" then (cl.jobsGet w.state ns name).2
       else (cl.scalesGet w.state ns kind name).2) := by
  obtain ⟨e, he⟩ := Option.ne_none_iff_exists'.mp h
  by_cases hk : ToLower kind = "job"
  · rw [ScaleResource_job cl kind ns name count w hk]
    simp [scaleJobResource, he, callJobsGet, Call.isUpdate, hk]
  · rw [ScaleResource_generic cl kind ns name count w hk]
    cases hg : (cl.scalesGet w.state ns kind name).1.err with
    | some e1 => simp [scaleGenericResource, he, callScalesGet, Call.isUpdate, hk, hg]
    | none => simp [scaleGenericResource, he, callScalesGet, Call.isUpdate, hk, hg]

/-- Witness for C3: the count `12.5` on the Deployment `default/web`. -/
theorem ScaleResource_rejects_malformed_count_witness :
    (Atoi "12.5").2 ≠ none ∧
    (∃ e, (ScaleResource storeClient "Deployment" "default" "web" "12.5" demoWorld).1 =
      Outcome.returned (none, some e)) ∧
    (∃ c, (ScaleResource storeClient "Deployment" "default" "web" "12.5" demoWorld).2.calls =
      demoWorld.calls ++ [c] ∧ c.isUpdate = false) :=
  ⟨by decide,
   (ScaleResource_rejects_malformed_count storeClient "Deployment" "default" "web" "12.5"
      demoWorld (by decide)).1,
   (ScaleResource_rejects_malformed_count storeClient "Deployment" "default" "web" "12.5"
      demoWorld (by decide)).2.1⟩

/-- C7: on a kind other than the job kind, when the scale fetch succeeds and
`Atoi` rejects the count string, the error returned by `ScaleResource` is the
one whose text is `Cannot parse scale by value: ` followed by the count string
verbatim. -/
theorem ScaleResource_parse_error_text {σ : Type} (cl : Client σ)
    (kind ns name count : String) (w : World σ) (hk : ToLower kind ≠ "job")
    (hf : (cl.scalesGet w.state ns kind name).1.err = none)
    (hp : (Atoi count).2 ≠ none) :
    (ScaleResource cl kind ns name count w).1 =
      Outcome.returned
        (none, some (GoError.errorString ("Cannot parse scale by value: " ++ count))) := by
  obtain ⟨e, he⟩ := Option.ne_none_iff_exists'.mp hp
  rw [ScaleResource_generic cl kind ns name count w hk]
  simp [scaleGenericResource, he, callScalesGet, hf, Errorf]

/-- Witness for C7: the count `abc` on the Deployment `default/web`. -/
theorem ScaleResource_parse_error_text_witness :
    ToLower "Deployment" ≠ "job" ∧
    (storeClient.scalesGet demoWorld.state "default" "Deployment" "web").1.err = none ∧
    (Atoi "abc").2 ≠ none ∧
    (ScaleResource storeClient "Deployment" "default" "web" "abc" demoWorld).1 =
      Outcome.returned
        (none, some (GoError.errorString ("Cannot parse scale by value: " ++ "abc"))) :=
  ⟨by decide, by decide, by decide,
   ScaleResource_parse_error_text storeClient "Deployment" "default" "web" "abc" demoWorld
     (by decide) (by decide) (by decide)⟩

/-! ## The generic path -/

/-- C10: on a kind other than the job kind, when the scale fetch succeeds with
object `s` and the count string parses to the integer `c` (of either sign), the
requests issued are the fetch followed by exactly one update; the object written
is `s` with its metadata and status untouched and its desired replica count
replaced by `int32(c)`, which lies in the signed 32-bit range, differs from `c`
by a multiple of `2 ^ 32`, and equals `c` exactly when
`-2 ^ 31 ≤ c ≤ 2 ^ 31 - 1`. -/
theorem scaleGeneric_writes_wrapped_count {σ : Type} (cl : Client σ)
    (kind ns name count : String) (w : World σ) (s : Scale) (c : Int)
    (hk : ToLower kind ≠ "job")
    (hf : (cl.scalesGet w.state ns kind name).1 = { val := some s, err := none })
    (hp : Atoi count = (c, none)) :
    (∃ s1 : Scale,
      (ScaleResource cl kind ns name count w).2.calls =
        w.calls ++ [Call.scalesGet ns kind name, Call.scalesUpdate ns kind s1] ∧
      s1.objectMeta = s.objectMeta ∧ s1.status = s.status ∧
      s1.spec.replicas = toInt32 c) ∧
    (-2 ^ 31 ≤ toInt32 c ∧ toInt32 c ≤ 2 ^ 31 - 1 ∧ (2 ^ 32 : Int) ∣ (c - toInt32 c)) ∧
    (toInt32 c = c ↔ (-2 ^ 31 ≤ c ∧ c ≤ 2 ^ 31 - 1)) := by
  refine ⟨⟨{ s with spec := { s.spec with replicas := toInt32 c } }, ?_, rfl, rfl, rfl⟩,
    ⟨(toInt32_range c).1, (toInt32_range c).2, toInt32_congr c⟩, ?_⟩
  · rw [ScaleResource_generic_world cl kind ns name count w hk]
    cases hue : (cl.scalesUpdate (cl.scalesGet w.state ns kind name).2 ns kind
        { s with spec := { s.spec with replicas := toInt32 c } }).1.err <;>
    cases huv : (cl.scalesUpdate (cl.scalesGet w.state ns kind name).2 ns kind
        { s with spec := { s.spec with replicas := toInt32 c } }).1.val <;>
    simp [scaleGenericResource, callScalesGet, callScalesUpdate, hf, hp, hue, huv]
  · constructor
    · intro h
      have := toInt32_range c
      rw [h] at this
      exact this
    · intro h
      exact toInt32_of_range c h.1 h.2

/-- Witness for C10: the count `-3` on the Deployment `default/web`. -/
theorem scaleGeneric_writes_wrapped_count_witness :
    ToLower "Deployment" ≠ "job" ∧ Atoi "-3" = (-3, none) ∧
    (∃ s1 : Scale,
      (ScaleResource storeClient "Deployment" "default" "web" "-3" demoWorld).2.calls =
        demoWorld.calls ++
          [Call.scalesGet "default" "Deployment" "web",
           Call.scalesUpdate "default" "Deployment" s1] ∧
      s1.objectMeta =
        { name := "web", ns := "default", resourceVersion := "7", labels := [] } ∧
      s1.status =
        { replicas := 2, selector := [("app", "web")], targetSelector := "app=web" } ∧
      s1.spec.replicas = toInt32 (-3)) :=
  ⟨by decide, by decide,
   (scaleGeneric_writes_wrapped_count storeClient "Deployment" "default" "web" "-3" demoWorld
      { objectMeta := { name := "web", ns := "default", resourceVersion := "7", labels := [] },
        spec := { replicas := 2 },
        status := { replicas := 2, selector := [("app", "web")], targetSelector := "app=web" } }
      (-3) (by decide) (by decide) (by decide)).1⟩

/-- C1 as stated fails: on the Deployment `default/web` of the demo store the
count `4294967297` is a valid non-negative integer, the fetch and the update
both succeed, and the result carries 1 desired replica, not 4294967297. -/
theorem ScaleResource_generic_desired_counterexample :
    ToLower "Deployment" ≠ "job" ∧
    Atoi "4294967297" = (4294967297, none) ∧
    (storeClient.scalesGet demoCluster "default" "Deployment" "web").1.err = none ∧
    (storeClient.scalesUpdate demoCluster "default" "Deployment"
      { objectMeta := { name := "web", ns := "default", resourceVersion := "7", labels := [] },
        spec := { replicas := toInt32 4294967297 },
        status := { replicas := 2, selector := [("app", "web")], targetSelector := "app=web" } }).1.err
      = none ∧
    (ScaleResource storeClient "Deployment" "default" "web" "4294967297" demoWorld).1 =
      Outcome.returned (some { DesiredReplicas := 1, ActualReplicas := 2 }, none) ∧
    (1 : Int) ≠ 4294967297 := by
  decide

/-- C1, amended: on a kind other than the job kind, for a count string that
parses to `N` with `0 ≤ N ≤ 2 ^ 31 - 1`, when the scale fetch succeeds with `s`
and the update of `s` with `N` desired replicas succeeds with an object `s2`
that carries the written replica count, `ScaleResource` returns a nil error and
a result with `DesiredReplicas = N` and `ActualReplicas` the status replica
count of `s2`. -/
theorem ScaleResource_generic_success {σ : Type} (cl : Client σ)
    (kind ns name count : String) (w : World σ) (N : Int) (s s2 : Scale)
    (hk : ToLower kind ≠ "job")
    (hp : Atoi count = (N, none)) (h0 : 0 ≤ N) (h1 : N ≤ 2 ^ 31 - 1)
    (hf : (cl.scalesGet w.state ns kind name).1 = { val := some s, err := none })
    (hu : (cl.scalesUpdate (cl.scalesGet w.state ns kind name).2 ns kind
            { s with spec := { s.spec with replicas := N } }).1 =
          { val := some s2, err := none })
    (hecho : s2.spec.replicas = N) :
    (ScaleResource cl kind ns name count w).1 =
      Outcome.returned
        (some { DesiredReplicas := N, ActualReplicas := s2.status.replicas }, none) := by
  have hw : toInt32 N = N := toInt32_of_range N (by omega) h1
  rw [ScaleResource_generic cl kind ns name count w hk]
  simp [scaleGenericResource, callScalesGet, callScalesUpdate, hf, hp, hw, hu, hecho]

/-- Witness for the amended C1: the count `5` on the Deployment `default/web`. -/
theorem ScaleResource_generic_success_witness :
    ToLower "Deployment" ≠ "job" ∧ Atoi "5" = (5, none) ∧
    (ScaleResource storeClient "Deployment" "default" "web" "5" demoWorld).1 =
      Outcome.returned (some { DesiredReplicas := 5, ActualReplicas := 2 }, none) :=
  ⟨by decide, by decide,
   ScaleResource_generic_success storeClient "Deployment" "default" "web" "5" demoWorld 5
     { objectMeta := { name := "web", ns := "default", resourceVersion := "7", labels := [] },
       spec := { replicas := 2 },
       status := { replicas := 2, selector := [("app", "web")], targetSelector := "app=web" } }
     { objectMeta := { name := "web", ns := "default", resourceVersion := "7", labels := [] },
       spec := { replicas := 5 },
       status := { replicas := 2, selector := [("app", "web")], targetSelector := "app=web" } }
     (by decide) (by decide) (by decide) (by decide) (by decide) (by decide) (by decide)⟩

/-- The sibling of the Job path: on a kind other than the job kind a failed
fetch, or a failed update after a successful fetch and parse, is returned
unchanged with a nil result. -/
theorem ScaleResource_generic_error_verbatim {σ : Type} (cl : Client σ)
    (kind ns name count : String) (w : World σ) (e : GoError) (hk : ToLower kind ≠ "job") :
    ((cl.scalesGet w.state ns kind name).1.err = some e →
      (ScaleResource cl kind ns name count w).1 = Outcome.returned (none, some e)) ∧
    (∀ s c, (cl.scalesGet w.state ns kind name).1 = { val := some s, err := none } →
      Atoi count = (c, none) →
      (cl.scalesUpdate (cl.scalesGet w.state ns kind name).2 ns kind
          { s with spec := { s.spec with replicas := toInt32 c } }).1.err = some e →
      (ScaleResource cl kind ns name count w).1 = Outcome.returned (none, some e)) := by
  constructor
  · intro hf
    rw [ScaleResource_generic cl kind ns name count w hk]
    simp [scaleGenericResource, callScalesGet, hf]
  · intro s c hf hp hu
    rw [ScaleResource_generic cl kind ns name count w hk]
    simp [scaleGenericResource, callScalesGet, callScalesUpdate, hf, hp, hu]

/-! ## The Job path -/

/-- C9: `scaleJobResource` returns a non-nil error exactly when `Atoi` rejects
the count string; whatever it returns, the error is the one `Atoi` gave, so no
answer of the Job fetch or of the Job update changes it; the Job fetch is
always the first request issued, also when the count is then rejected, in which
case it is the only request and `rc` is left untouched. -/
theorem scaleJobResource_error_is_parse_error {σ : Type} (cl : Client σ)
    (ns name count : String) (rc : ReplicaCounts) (w : World σ) :
    ((∃ r e, (scaleJobResource cl ns name count rc w).1 = Outcome.returned (r, some e)) ↔
      (Atoi count).2 ≠ none) ∧
    (∀ r, (scaleJobResource cl ns name count rc w).1 = Outcome.returned r →
      r.2 = (Atoi count).2) ∧
    (∃ rest, (scaleJobResource cl ns name count rc w).2.calls =
      w.calls ++ Call.jobsGet ns name :: rest) ∧
    ((Atoi count).2 ≠ none →
      (scaleJobResource cl ns name count rc w).1 = Outcome.returned (rc, (Atoi count).2) ∧
      (scaleJobResource cl ns name count rc w).2.calls = w.calls ++ [Call.jobsGet ns name]) := by
  cases ha : (Atoi count).2 with
  | some e => simp [scaleJobResource, ha, callJobsGet]
  | none =>
    unfold scaleJobResource
    simp only [ha]
    refine ⟨?_, ?_, ?_, ?_⟩
    · simp only [ne_eq, not_true_eq_false, iff_false, not_exists]
      intro r e
      split
      · simp
      · split
        · simp
        · split
          · simp
          · split <;> simp
    · intro r
      split
      · simp
      · split
        · simp
        · split
          · simp
          · split
            · simp
            · intro h
              cases h
              rfl
    · split
      · exact ⟨[], by simp [callJobsGet]⟩
      · split
        · exact ⟨[], by simp [callJobsGet]⟩
        · split
          · exact ⟨_, by simp [callJobsGet, callJobsUpdate]; rfl⟩
          · split <;> exact ⟨_, by simp [callJobsGet, callJobsUpdate]; rfl⟩
    · simp

/-- Witness for C9: the Job `default/missing` is absent from the demo store, so
the fetch fails, and the count `abc` is rejected: the returned error is the one
of `Atoi`. -/
theorem scaleJobResource_error_is_parse_error_witness :
    (storeClient.jobsGet demoCluster "default" "missing").1.err = some (notFound "missing") ∧
    (Atoi "abc").2 ≠ none ∧
    (scaleJobResource storeClient "default" "missing" "abc" ⟨0, 0⟩ demoWorld).1 =
      Outcome.returned (⟨0, 0⟩, (Atoi "abc").2) :=
  ⟨by decide, by decide,
   ((scaleJobResource_error_is_parse_error storeClient "default" "missing" "abc" ⟨0, 0⟩
      demoWorld).2.2.2 (by decide)).1⟩

/-- C4 fails on the Job path: the Job `default/missing` is absent from the demo
store, so the fetch fails with the not-found error; with the count `abc`
`ScaleResource` returns the parse error of `Atoi` in its place, and with the
count `3` it dereferences the nil parallelism pointer of the empty Job and
panics instead of returning the fetch error. -/
theorem ScaleResource_job_drops_fetch_error :
    ToLower "job" = "job" ∧
    (storeClient.jobsGet demoCluster "default" "missing").1 =
      { val := some zeroJob, err := some (notFound "missing") } ∧
    (ScaleResource storeClient "job" "default" "missing" "abc" demoWorld).1 =
      Outcome.returned (none, some (GoError.numError "Atoi" "abc" NumErrKind.invalid)) ∧
    GoError.numError "Atoi" "abc" NumErrKind.invalid ≠ notFound "missing" ∧
    (ScaleResource storeClient "job" "default" "missing" "3" demoWorld).1 = Outcome.panicked := by
  decide

/-- C2 as stated fails: on the Job `default/batch` of the demo store, with the
kind written `JOB`, the count `4294967297` parses, the Job path is taken, and
the result carries 1 in both fields, not 4294967297. -/
theorem ScaleResource_job_counterexample :
    ToLower "JOB" = "job" ∧
    Atoi "4294967297" = (4294967297, none) ∧
    (ScaleResource storeClient "JOB" "default" "batch" "4294967297" demoWorld).1 =
      Outcome.returned (some { DesiredReplicas := 1, ActualReplicas := 1 }, none) ∧
    (1 : Int) ≠ 4294967297 := by
  decide

/-- C2, amended: for a kind whose lower-casing is `job` and a count string
that parses to `N` with `-2 ^ 31 ≤ N ≤ 2 ^ 31 - 1`, when the Job fetch succeeds
with a Job `j` whose parallelism is set and the update of `j` with parallelism
`N` succeeds with a Job that carries the written parallelism, `ScaleResource`
issues the Job fetch and the Job update and no request on the scale
sub-resource, and returns a nil error and a result with both
`DesiredReplicas` and `ActualReplicas` equal to `N`. -/
theorem ScaleResource_job_success {σ : Type} (cl : Client σ)
    (kind ns name count : String) (w : World σ) (N p : Int) (j j2 : Job)
    (hk : ToLower kind = "job")
    (hp : Atoi count = (N, none)) (h0 : -2 ^ 31 ≤ N) (h1 : N ≤ 2 ^ 31 - 1)
    (hf : (cl.jobsGet w.state ns name).1 = { val := some j, err := none })
    (hpar : j.spec.parallelism = some p)
    (hu : (cl.jobsUpdate (cl.jobsGet w.state ns name).2 ns
            { j with spec := { j.spec with parallelism := some N } }).1 =
          { val := some j2, err := none })
    (hecho : j2.spec.parallelism = some N) :
    (ScaleResource cl kind ns name count w).1 =
      Outcome.returned (some { DesiredReplicas := N, ActualReplicas := N }, none) ∧
    (ScaleResource cl kind ns name count w).2.calls =
      w.calls ++ [Call.jobsGet ns name,
        Call.jobsUpdate ns { j with spec := { j.spec with parallelism := some N } }] ∧
    (∀ c ∈ (ScaleResource cl kind ns name count w).2.calls,
      c ∈ w.calls ∨ c.isScales = false) := by
  have hw : toInt32 N = N := toInt32_of_range N h0 h1
  have hcalls : (ScaleResource cl kind ns name count w).2.calls =
      w.calls ++ [Call.jobsGet ns name,
        Call.jobsUpdate ns { j with spec := { j.spec with parallelism := some N } }] := by
    rw [ScaleResource_job_world cl kind ns name count w hk]
    simp [scaleJobResource, callJobsGet, callJobsUpdate, hf, hp, hw, hu, hecho, hpar]
  refine ⟨?_, hcalls, ?_⟩
  · rw [ScaleResource_job cl kind ns name count w hk]
    simp [scaleJobResource, callJobsGet, callJobsUpdate, hf, hp, hw, hu, hecho, hpar]
  · intro c hc
    rw [hcalls, List.mem_append] at hc
    rcases hc with hc | hc
    · exact Or.inl hc
    · right
      simp only [List.mem_cons, List.mem_singleton, List.not_mem_nil, or_false] at hc
      rcases hc with rfl | rfl <;> rfl

/-- Witness for the amended C2: the count `5` on the Job `default/batch`, the
kind written `Job`. -/
theorem ScaleResource_job_success_witness :
    ToLower "Job" = "job" ∧ Atoi "5" = (5, none) ∧
    (ScaleResource storeClient "Job" "default" "batch" "5" demoWorld).1 =
      Outcome.returned (some { DesiredReplicas := 5, ActualReplicas := 5 }, none) :=
  ⟨by decide, by decide,
   (ScaleResource_job_success storeClient "Job" "default" "batch" "5" demoWorld 5 1
     { objectMeta := { name := "batch", ns := "default", resourceVersion := "3", labels := [] },
       spec := { parallelism := some 1, completions := some 4 },
       status := { active := 1, succeeded := 0, failed := 0 } }
     { objectMeta := { name := "batch", ns := "default", resourceVersion := "3", labels := [] },
       spec := { parallelism := some 5, completions := some 4 },
       status := { active := 1, succeeded := 0, failed := 0 } }
     (by decide) (by decide) (by decide) (by decide) (by decide) (by decide) (by decide)
     (by decide)).1⟩

/-! ## Round trip on the store -/

/-- C6 as stated fails: on the Deployment `default/web` of the demo store, with
the valid non-negative count `4294967297`, the scale is read, the new scale is
applied with success, and the scale read back has 1 desired replica, not
4294967297. -/
theorem scaleRoundTrip_counterexample :
    ToLower "Deployment" ≠ "job" ∧
    Atoi "4294967297" = (4294967297, none) ∧
    scaleRoundTrip storeClient "Deployment" "default" "web" "4294967297" demoWorld =
      (Outcome.returned (some { DesiredReplicas := 2, ActualReplicas := 2 }, none),
       Outcome.returned (some { DesiredReplicas := 1, ActualReplicas := 2 }, none),
       Outcome.returned (some { DesiredReplicas := 1, ActualReplicas := 2 }, none)) ∧
    (1 : Int) ≠ 4294967297 := by
  decide

/-- C6, amended: on the store, for a kind other than the job kind with a scale
object `s0` stored under (kind, namespace, name) and a count string that parses
to `N` with `0 ≤ N ≤ 2 ^ 31 - 1`: reading the scale returns the stored counts,
applying the scale `N` succeeds, and reading the scale again returns
`DesiredReplicas = N`. -/
theorem scaleRoundTrip_store (st : Cluster) (log : List Call)
    (kind ns name count : String) (N : Int) (s0 : Scale)
    (hk : ToLower kind ≠ "job")
    (hs : lookup (kind, ns, name) st.scales = some s0)
    (hp : Atoi count = (N, none)) (h0 : 0 ≤ N) (h1 : N ≤ 2 ^ 31 - 1) :
    scaleRoundTrip storeClient kind ns name count { state := st, calls := log } =
      (Outcome.returned
         (some { DesiredReplicas := s0.spec.replicas, ActualReplicas := s0.status.replicas }, none),
       Outcome.returned
         (some { DesiredReplicas := N, ActualReplicas := s0.status.replicas }, none),
       Outcome.returned
         (some { DesiredReplicas := N, ActualReplicas := s0.status.replicas }, none)) := by
  have hw : toInt32 N = N := toInt32_of_range N (by omega) h1
  have hr := lookup_replace (kind, ns, name)
    ({ objectMeta := { s0.objectMeta with name := name, ns := ns },
       spec := { replicas := N }, status := s0.status } : Scale) s0 st.scales hs
  simp only [scaleRoundTrip]
  rw [ScaleResource_generic storeClient kind ns name count _ hk]
  simp [GetScaleSpec, scaleGenericResource, callScalesGet, callScalesUpdate, storeClient,
    hs, hp, hw, hr]

/-- Witness for the amended C6: the count `5` on the Deployment `default/web`. -/
theorem scaleRoundTrip_store_witness :
    ToLower "Deployment" ≠ "job" ∧ Atoi "5" = (5, none) ∧
    scaleRoundTrip storeClient "Deployment" "default" "web" "5" demoWorld =
      (Outcome.returned (some { DesiredReplicas := 2, ActualReplicas := 2 }, none),
       Outcome.returned (some { DesiredReplicas := 5, ActualReplicas := 2 }, none),
       Outcome.returned (some { DesiredReplicas := 5, ActualReplicas := 2 }, none)) :=
  ⟨by decide, by decide,
   scaleRoundTrip_store demoCluster [] "Deployment" "default" "web" "5" 5
     { objectMeta := { name := "web", ns := "default", resourceVersion := "7", labels := [] },
       spec := { replicas := 2 },
       status := { replicas := 2, selector := [("app", "web")], targetSelector := "app=web" } }
     (by decide) (by decide) (by decide) (by decide) (by decide)⟩

/-! ## The REST configuration -/

theorem lookup_append_of_some {κ α : Type} [DecidableEq κ] (k : κ) (v : α)
    (l l2 : List (κ × α)) (h : lookup k l = some v) : lookup k (l ++ l2) = some v := by
  induction l with
  | nil => simp [lookup] at h
  | cons hd tl ih =>
    obtain ⟨k1, v1⟩ := hd
    by_cases hk : k1 = k
    · simpa [lookup, hk] using h
    · simp only [lookup, if_neg hk] at h
      simp [lookup, hk, ih h]

theorem lookup_append_of_none {κ α : Type} [DecidableEq κ] (k : κ) (v : α)
    (l : List (κ × α)) (h : lookup k l = none) : lookup k (l ++ [(k, v)]) = some v := by
  induction l with
  | nil => simp [lookup]
  | cons hd tl ih =>
    obtain ⟨k1, v1⟩ := hd
    by_cases hk : k1 = k
    · simp [lookup, hk] at h
    · simp only [lookup, if_neg hk] at h
      simp [lookup, hk, ih h]

/-- A registration of one type that returns was made under a non-empty version,
leaves the type bound to its kind and keeps every earlier binding. -/
theorem Scheme.AddKnownTypeWithName_returned (sch : Scheme) (gv : GroupVersion)
    (kind : String) (t : GoType)
    (h : (sch.AddKnownTypeWithName gv kind t).1 = Outcome.returned ()) :
    gv.Version ≠ "" ∧
    lookup (gv, kind) (sch.AddKnownTypeWithName gv kind t).2.gvkToType = some t ∧
    (∀ k v, lookup k sch.gvkToType = some v →
      lookup k (sch.AddKnownTypeWithName gv kind t).2.gvkToType = some v) := by
  unfold Scheme.AddKnownTypeWithName at h ⊢
  by_cases hv : gv.Version = ""
  · simp [hv] at h
  · simp only [if_neg hv] at h ⊢
    refine ⟨hv, ?_⟩
    cases hl : lookup (gv, kind) sch.gvkToType with
    | none =>
      simp only []
      exact ⟨lookup_append_of_none _ _ _ hl, fun k v hk => lookup_append_of_some _ _ _ _ hk⟩
    | some oldT =>
      simp only [hl] at h
      by_cases ht : oldT = t
      · simp only [if_pos ht]
        exact ⟨by rw [hl, ht], fun k v hk => hk⟩
      · simp [ht] at h

/-- A registration of a list of types that returns leaves each of them bound to
its name and keeps every earlier binding. -/
theorem Scheme.AddKnownTypes_returned (gv : GroupVersion) (ts : List GoType) :
    ∀ sch : Scheme, (sch.AddKnownTypes gv ts).1 = Outcome.returned () →
      (∀ t ∈ ts, lookup (gv, t.name) (sch.AddKnownTypes gv ts).2.gvkToType = some t) ∧
      (∀ k v, lookup k sch.gvkToType = some v →
        lookup k (sch.AddKnownTypes gv ts).2.gvkToType = some v) ∧
      (ts ≠ [] → gv.Version ≠ "") := by
  induction ts with
  | nil =>
    intro sch _
    exact ⟨by simp, fun k v hk => by simpa [Scheme.AddKnownTypes] using hk, by simp⟩
  | cons t ts ih =>
    intro sch h
    unfold Scheme.AddKnownTypes at h ⊢
    cases h1 : (sch.AddKnownTypeWithName gv t.name t).1 with
    | panicked => simp [h1] at h
    | returned u =>
      simp only [h1] at h ⊢
      obtain ⟨hv, hreg, hkeep⟩ := Scheme.AddKnownTypeWithName_returned sch gv t.name t h1
      obtain ⟨hall, hkeep2, _⟩ := ih _ h
      refine ⟨?_, fun k v hk => hkeep2 k v (hkeep k v hk), fun _ => hv⟩
      intro t1 ht1
      rcases List.mem_cons.mp ht1 with rfl | hmem
      · exact hkeep2 _ _ hreg
      · exact hall t1 hmem

/-- Registering types that are all bound already, under a non-empty version,
returns and leaves the registry as it is. -/
theorem Scheme.AddKnownTypes_of_registered (gv : GroupVersion) (sch : Scheme)
    (hv : gv.Version ≠ "") (ts : List GoType)
    (h : ∀ t ∈ ts, lookup (gv, t.name) sch.gvkToType = some t) :
    sch.AddKnownTypes gv ts = (Outcome.returned (), sch) := by
  induction ts with
  | nil => rfl
  | cons t ts ih =>
    have ht := h t (List.mem_cons_self t ts)
    have h1 : sch.AddKnownTypeWithName gv t.name t = (Outcome.returned (), sch) := by
      simp [Scheme.AddKnownTypeWithName, hv, ht]
    unfold Scheme.AddKnownTypes
    simp only [h1]
    exact ih (fun t1 ht1 => h t1 (List.mem_cons_of_mem t ht1))

/-- On the table registry, after an application of `newRESTConfig` that
returned, a second application with the same group-version on the
configuration and the registry it left returns the same configuration and
leaves the registry unchanged. -/
theorem newRESTConfig_schemeRegistry_twice (c c1 : Config) (gv : GroupVersion) (sch : Scheme)
    (h : (newRESTConfig schemeRegistry c gv sch).1 = Outcome.returned c1) :
    newRESTConfig schemeRegistry c1 gv (newRESTConfig schemeRegistry c gv sch).2.2 =
      (Outcome.returned c1, c1, (newRESTConfig schemeRegistry c gv sch).2.2) := by
  unfold newRESTConfig at h ⊢
  simp only [schemeRegistry] at h ⊢
  cases hr : (sch.AddKnownTypes gv knownTypes).1 with
  | panicked => simp [hr] at h
  | returned u =>
    simp only [hr] at h ⊢
    obtain ⟨hall, _, hv⟩ := Scheme.AddKnownTypes_returned gv knownTypes sch hr
    rw [Scheme.AddKnownTypes_of_registered gv _ (hv (by simp [knownTypes])) knownTypes hall]
    cases h
    rfl

/-- C8 as stated fails: for the group-version `example.com` with an empty
version the registration panics, so `newRESTConfig` returns no configuration;
the caller's configuration has been overwritten all the same. -/
theorem newRESTConfig_empty_version_counterexample :
    (newRESTConfig schemeRegistry demoConfig { Group := "example.com", Version := "" }
        demoScheme).1 = Outcome.panicked ∧
    (newRESTConfig schemeRegistry demoConfig { Group := "example.com", Version := "" }
        demoScheme).2.1.APIPath = "/apis" := by
  decide

/-- C8, amended: for every configuration `c`, group-version `gv` and registry
on which the registration of the four known types under `gv` returns,
`newRESTConfig` returns the caller's configuration, which is `c` with the
group-version set to `gv`, the API path set to `/apis`, the content type set to
JSON and the direct codec factory over `scheme.Codecs` installed as serializer;
host, accepted content types, credentials, TLS settings, user agent, burst and
timeout are those of `c`; and applying it again with the same `gv`, on any
registry state on which the registration returns, returns the same
configuration. -/
theorem newRESTConfig_frame {ρ : Type} (reg : Registry ρ) (c : Config) (gv : GroupVersion)
    (sch : ρ) (hreg : (reg.AddKnownTypes sch gv knownTypes).1 = Outcome.returned ()) :
    ∃ c1 : Config,
      (newRESTConfig reg c gv sch).1 = Outcome.returned c1 ∧
      (newRESTConfig reg c gv sch).2.1 = c1 ∧
      (c1.GroupVersion = some gv ∧ c1.APIPath = "/apis" ∧
       c1.ContentType = "application/json" ∧
       c1.NegotiatedSerializer =
         some (NegotiatedSerializer.directCodecFactory CodecFactory.schemeCodecs)) ∧
      (c1.Host = c.Host ∧ c1.AcceptContentTypes = c.AcceptContentTypes ∧
       c1.Username = c.Username ∧ c1.Password = c.Password ∧
       c1.BearerToken = c.BearerToken ∧ c1.Insecure = c.Insecure ∧
       c1.TLSClientConfig = c.TLSClientConfig ∧ c1.UserAgent = c.UserAgent ∧
       c1.Burst = c.Burst ∧ c1.Timeout = c.Timeout) ∧
      (∀ sch2, (reg.AddKnownTypes sch2 gv knownTypes).1 = Outcome.returned () →
        (newRESTConfig reg c1 gv sch2).1 = Outcome.returned c1 ∧
        (newRESTConfig reg c1 gv sch2).2.1 = c1) := by
  refine ⟨{ c with
      GroupVersion := some gv, APIPath := "/apis", ContentType := "application/json",
      NegotiatedSerializer :=
        some (NegotiatedSerializer.directCodecFactory CodecFactory.schemeCodecs) },
    ?_, ?_, ⟨rfl, rfl, rfl, rfl⟩, ⟨rfl, rfl, rfl, rfl, rfl, rfl, rfl, rfl, rfl, rfl⟩, ?_⟩
  · simp [newRESTConfig, hreg, ContentTypeJSON]
  · simp [newRESTConfig, hreg, ContentTypeJSON]
  · intro sch2 h2
    constructor <;> simp [newRESTConfig, h2, ContentTypeJSON]

/-- Witness for the amended C8: the group-version `example.com/v1` on the demo
configuration and the demo registry. -/
theorem newRESTConfig_frame_witness :
    (schemeRegistry.AddKnownTypes demoScheme { Group := "example.com", Version := "v1" }
        knownTypes).1 = Outcome.returned () ∧
    ∃ c1 : Config,
      (newRESTConfig schemeRegistry demoConfig { Group := "example.com", Version := "v1" }
          demoScheme).1 = Outcome.returned c1 ∧
      (newRESTConfig schemeRegistry demoConfig { Group := "example.com", Version := "v1" }
          demoScheme).2.1 = c1 ∧
      (c1.GroupVersion = some { Group := "example.com", Version := "v1" } ∧
       c1.APIPath = "/apis" ∧ c1.ContentType = "application/json" ∧
       c1.NegotiatedSerializer =
         some (NegotiatedSerializer.directCodecFactory CodecFactory.schemeCodecs)) ∧
      (c1.Host = demoConfig.Host ∧ c1.AcceptContentTypes = demoConfig.AcceptContentTypes ∧
       c1.Username = demoConfig.Username ∧ c1.Password = demoConfig.Password ∧
       c1.BearerToken = demoConfig.BearerToken ∧ c1.Insecure = demoConfig.Insecure ∧
       c1.TLSClientConfig = demoConfig.TLSClientConfig ∧ c1.UserAgent = demoConfig.UserAgent ∧
       c1.Burst = demoConfig.Burst ∧ c1.Timeout = demoConfig.Timeout) ∧
      (∀ sch2,
        (schemeRegistry.AddKnownTypes sch2 { Group := "example.com", Version := "v1" }
          knownTypes).1 = Outcome.returned () →
        (newRESTConfig schemeRegistry c1 { Group := "example.com", Version := "v1" } sch2).1 =
          Outcome.returned c1 ∧
        (newRESTConfig schemeRegistry c1 { Group := "example.com", Version := "v1" } sch2).2.1 =
          c1) :=
  ⟨by decide,
   newRESTConfig_frame schemeRegistry demoConfig { Group := "example.com", Version := "v1" }
     demoScheme (by decide)⟩

end Dashboard
